import Mathlib

/-!
Verification development for `reconstruct_pmvs2.py` of the
multi_view_stereo_benchmark repository.

The Python module is glue code: it converts camera calibration data into
the textual input files the external `pmvs2` binary expects, invokes that
binary, and relocates its output.  We embed the file-producing functions
shallowly: each function is modelled as a pure Lean function returning the
sequence of strings it writes (or a trace of file-system events for the
orchestrator), together with a success flag where the Python code can fail
an `assert`.

Numeric conventions of the embedding:
* Python `int` is `Int` (or `Nat` where the source value is a length).
* Python `%` and `//` on ints agree with Lean's `Int.emod` / `Int.div`
  for the nonnegative divisors used here (both are floor-style for a
  positive divisor).
* Python `float` matrix entries are idealised as `ℚ`; the claims about
  them concern exact algebraic structure and file layout, not rounding.
  The float tolerance literal `.000000001` is modelled as the exact
  rational `1 / 1000000000`, and C `%f` formatting as fixed six-decimal
  rounding.
-/

/-! ## write_vis_file_ring (source lines 135-160) -/

/-- `numPositiveNeighbors = int(numNeighbors)//2 + numNeighbors%2`
(computed identically on every loop iteration in the source). -/
def numPositiveNeighbors (numNeighbors : Int) : Nat :=
  (numNeighbors / 2 + numNeighbors % 2).toNat

/-- `numNegativeNeighbors = int(numNeighbors)//2`. -/
def numNegativeNeighbors (numNeighbors : Int) : Nat :=
  (numNeighbors / 2).toNat

/-- The neighbor indices written for `center_camera = c`: first the
positive (successor) neighbors `(c+i+1) % numCameras` for
`i in range(numPositiveNeighbors)`, then the negative (predecessor)
neighbors `(c-i-1) % numCameras` for `i in range(numNegativeNeighbors)`. -/
def ringNeighbors (numCameras : Nat) (numNeighbors : Int) (c : Nat) : List Int :=
  ((List.range (numPositiveNeighbors numNeighbors)).map
      fun (i : Nat) => ((c : Int) + (i : Int) + 1) % (numCameras : Int)) ++
  ((List.range (numNegativeNeighbors numNeighbors)).map
      fun (i : Nat) => ((c : Int) - (i : Int) - 1) % (numCameras : Int))

/-- The `fd.write` calls made for one camera's line:
`str(center_camera)+' '`, `str(numNeighbors)+' '`, each neighbor as
`str(neighbor_camera)+' '`, then `'\n'`. -/
def ringLine (numCameras : Nat) (numNeighbors : Int) (c : Nat) : List String :=
  [toString c ++ " ", toString numNeighbors ++ " "] ++
  (ringNeighbors numCameras numNeighbors c).map (fun n => toString n ++ " ") ++
  ["\n"]

/-- `write_vis_file_ring(numCameras, numNeighbors)`, modelled as the list
of strings written to the file, paired with `true` iff the function runs
to completion.  The source writes `'VISDATA\n'` and `str(numCameras)+'\n'`
first, then checks `assert(numNeighbors >= 1)` and
`assert(numNeighbors+1)` (an int is falsy exactly when it is 0), and only
then writes the per-camera lines; a failed assertion therefore leaves the
two header writes already performed. -/
def write_vis_file_ring (numCameras : Nat) (numNeighbors : Int) :
    List String × Bool :=
  let header : List String := ["VISDATA\n", toString numCameras ++ "\n"]
  if 1 ≤ numNeighbors then
    if numNeighbors + 1 ≠ 0 then
      (header ++ ((List.range numCameras).map
        (ringLine numCameras numNeighbors)).flatten, true)
    else (header, false)
  else (header, false)

/-! ## PMVS2Options (source lines 85-133) -/

/-- A Python value as it occurs among the fields of `PMVS2Options`:
an `int`, a `float` (represented by the string `str` produces for it,
since the module only ever formats its floats), or a list of ints. -/
inductive PyVal where
  | vint : Int → PyVal
  | vfloat : String → PyVal
  | vlist : List Int → PyVal
deriving DecidableEq

/-- The fields of `PMVS2Options`.  `threshold` is a Python float, carried
as the string `str` renders it (the default `0.6` prints as `"0.6"`). -/
structure PMVS2Options where
  level : Int
  csize : Int
  threshold : String
  wsize : Int
  minImageNum : Int
  CPU : Int
  useVisData : Int
  sequence : Int
  numNeighbors : Int
  timages : List Int
  oimages : Int
deriving DecidableEq

/-- `PMVS2Options.__init__`: `timages=None` defaults to
`[-1, 0, numCameras]`; note the constructor assigns `numNeighbors`
before `timages`, which fixes the instance-dict iteration order. -/
def PMVS2Options.init (numCameras level csize : Int) (threshold : String)
    (wsize minImageNum CPU useVisData sequence : Int)
    (timages : Option (List Int)) (oimages numNeighbors : Int) :
    PMVS2Options :=
  { level := level, csize := csize, threshold := threshold, wsize := wsize,
    minImageNum := minImageNum, CPU := CPU, useVisData := useVisData,
    sequence := sequence, numNeighbors := numNeighbors,
    timages := timages.getD [-1, 0, numCameras], oimages := oimages }

/-- `PMVS2Options(numCameras)` with every keyword left at its default. -/
def PMVS2Options.withDefaults (numCameras : Int) : PMVS2Options :=
  PMVS2Options.init numCameras 1 2 "0.6" 7 2 8 1 (-1) none 0 2

/-- `vars(self).items()` for a `PMVS2Options` instance: the attribute
dictionary in insertion order, i.e. the order the constructor assigns the
attributes (`numNeighbors` is assigned before `timages`). -/
def PMVS2Options.varsList (o : PMVS2Options) : List (String × PyVal) :=
  [("level", .vint o.level), ("csize", .vint o.csize),
   ("threshold", .vfloat o.threshold), ("wsize", .vint o.wsize),
   ("minImageNum", .vint o.minImageNum), ("CPU", .vint o.CPU),
   ("useVisData", .vint o.useVisData), ("sequence", .vint o.sequence),
   ("numNeighbors", .vint o.numNeighbors), ("timages", .vlist o.timages),
   ("oimages", .vint o.oimages)]

/-- `PMVS2Options.write_options_file`, modelled as the list of lines
written: iterate over `vars(self)`, skip `numNeighbors`, write
`'%s %s\n' % (key, str(val))` for int/float values and
`key + ' ' + ' '.join(map(str, val)) + '\n'` for list values. -/
def PMVS2Options.write_options_file (o : PMVS2Options) : List String :=
  o.varsList.filterMap fun kv =>
    if kv.1 == "numNeighbors" then none
    else match kv.2 with
      | .vint n => some (kv.1 ++ " " ++ toString n ++ "\n")
      | .vfloat s => some (kv.1 ++ " " ++ s ++ "\n")
      | .vlist l =>
          some (kv.1 ++ " " ++ String.intercalate " " (l.map toString) ++ "\n")

/-! ## set_up_txt_subdirectory (source lines 38-82) -/

/-- Per-camera calibration as returned by the external loaders
`load_intrinsics` / `load_extrinsics` (the loader module is an external
collaborator; the claims quantify over whatever it returns).  Matrix
entries are idealised as `ℚ`. -/
structure CameraCalib where
  cameraMatrix : Matrix (Fin 3) (Fin 3) ℚ
  distCoffs : Fin 5 → ℚ
  R : Matrix (Fin 3) (Fin 3) ℚ
  T : Fin 3 → ℚ

/-- The tolerance `.000000001` of the five distortion assertions,
as the exact rational one-billionth. -/
def distTol : ℚ := mkRat 1 1000000000

/-- Python's built-in `abs` on the idealised rational value. -/
def ratAbs (q : ℚ) : ℚ := if q < 0 then -q else q

/-- The conjunction of the five asserts
`assert(abs(distCoffs[k]) < .000000001)` for `k = 0..4`. -/
def distortionOkB (d : Fin 5 → ℚ) : Bool :=
  decide (ratAbs (d 0) < distTol) && decide (ratAbs (d 1) < distTol) &&
  decide (ratAbs (d 2) < distTol) && decide (ratAbs (d 3) < distTol) &&
  decide (ratAbs (d 4) < distTol)

/-- `numpy.hstack((R, numpy.reshape(T,(3,1))))`: the 3x4 matrix whose
first three columns are `A` and whose last column is `v`. -/
def hstack34 (A : Matrix (Fin 3) (Fin 3) ℚ) (v : Fin 3 → ℚ) :
    Matrix (Fin 3) (Fin 4) ℚ :=
  Matrix.of fun i j => if h : (j : Nat) < 3 then A i ⟨j, h⟩ else v i

/-- The projection matrix the loop body computes:
`R,T = R.T, numpy.dot(-R.T,T)`; `temp = hstack((R, reshape(T,(3,1))))`;
`P = numpy.dot(cameraMatrix, temp)`. -/
def projMatrix (cam : CameraCalib) : Matrix (Fin 3) (Fin 4) ℚ :=
  cam.cameraMatrix * hstack34 cam.R.transpose ((-cam.R.transpose).mulVec cam.T)

/-- The spec's formula, stated from its words: "projection =
intrinsics · [rotation | translation]" with "rotation → transpose,
translation → −Rᵗt". -/
def projMatrixSpec (C R : Matrix (Fin 3) (Fin 3) ℚ) (t : Fin 3 → ℚ) :
    Matrix (Fin 3) (Fin 4) ℚ :=
  C * hstack34 R.transpose (-(R.transpose.mulVec t))

/-- C's `%f` conversion, modelled as fixed-point rounding to six decimal
places of the idealised rational value. -/
def fmtFixed6 (q : ℚ) : String :=
  let n : Int := ⌊q * 1000000 + 1 / 2⌋
  let sign := if n < 0 ∨ (n = 0 ∧ q < 0) then "-" else ""
  let m := n.natAbs
  let frac := toString (m % 1000000)
  sign ++ toString (m / 1000000) ++ "." ++
    String.mk (List.replicate (6 - frac.length) '0') ++ frac

/-- The rows of a 3x4 matrix, as `numpy.savetxt` iterates them. -/
def matRows (P : Matrix (Fin 3) (Fin 4) ℚ) : List (List ℚ) :=
  [[P 0 0, P 0 1, P 0 2, P 0 3],
   [P 1 0, P 1 1, P 1 2, P 1 3],
   [P 2 0, P 2 1, P 2 2, P 2 3]]

/-- `numpy.savetxt(_, X, fmt, header, comments)` with space delimiter and
no footer: the header line (prefixed by `comments`) when a header is
given, then one line per row, entries formatted by `fmt` and joined by
single spaces. -/
def savetxt (X : List (List ℚ)) (fmt : ℚ → String)
    (header comments : String) : String :=
  String.join
    ((if header = "" then [] else [comments ++ header ++ "\n"]) ++
     X.map fun r => String.intercalate " " (r.map fmt) ++ "\n")

/-- `'%08i' % n` for a nonnegative int. -/
def pad8 (n : Nat) : String :=
  let s := toString n
  String.mk (List.replicate (8 - s.length) '0') ++ s

/-- The name of the i-th projection file, `'%08i.txt' % i`. -/
def txtFileName (i : Nat) : String := pad8 i ++ ".txt"

/-- The content written for one camera:
`numpy.savetxt(str(outFilePath), P, '%f', header='CONTOUR', comments='')`. -/
def projFileContent (cam : CameraCalib) : String :=
  savetxt (matRows (projMatrix cam)) fmtFixed6 "CONTOUR" ""

/-- The camera loop of `set_up_txt_subdirectory`, processing cameras in
index order starting at `i`: for each camera the five distortion asserts
run first; on success the projection file is written and the loop
continues, on failure the function aborts with the files written so far.
Returns the `(fileName, content)` pairs written and `true` iff every
camera passed. -/
def txtLoop (i : Nat) : List CameraCalib → List (String × String) × Bool
  | [] => ([], true)
  | cam :: rest =>
      if distortionOkB cam.distCoffs then
        let r := txtLoop (i + 1) rest
        ((txtFileName i, projFileContent cam) :: r.1, r.2)
      else ([], false)

/-- `set_up_txt_subdirectory`, abstracted over the calibrations the
loaders return for cameras `0, 1, ...`: the projection files written (in
order) and whether the function completed without an assertion failure. -/
def set_up_txt_subdirectory (cams : List CameraCalib) :
    List (String × String) × Bool :=
  txtLoop 0 cams

/-! ## run_pmvs (source lines 162-242)

The orchestrator is modelled as a trace of file-system events.  The
external world (subprocess exit statuses, whether `pmvs2` deposited its
artifact, the measured wall-clock time, the scratch directory name the
OS hands out) is collected in a `RunEnv`.  Paths are plain strings joined
with `/`; `destFile` is a bare file name, as in every call site. -/

/-- `pathlib.PurePath.stem` of a bare file name: the name with its last
suffix removed (a leading dot or a trailing dot does not start a
suffix). -/
def pathStem (name : String) : String :=
  match (name.data.reverse.indexOf? '.') with
  | none => name
  | some rIdx =>
      let i := name.length - 1 - rIdx
      if 0 < i ∧ i < name.length - 1 then ⟨name.data.take i⟩ else name

/-- One observable effect of `run_pmvs`. -/
inductive Ev where
  | mkTempDir (p : String)
  | setupVisualize (images work : String)
  | setupTxt (images work : String)
  | mkdirModels (work : String)
  | writeOptionsFile (work : String)
  | writeVisFile (work : String)
  | callPmvs (work : String)
  | writeFile (p content : String)
  | renameFile (src dst : String)
  | removeTempDir (p : String)
  | assertFail
  | raiseError
deriving DecidableEq

/-- The environment of one `run_pmvs` invocation. -/
structure RunEnv where
  cwd : String
  tmpName : String
  imagesPath : String
  convertOk : Bool
  calibOk : Bool
  visOk : Bool
  pmvsOk : Bool
  artifactExists : Bool
  dtStr : String

/-- `e.isWriteAt p` holds of a `writeFile` event at path `p`. -/
def Ev.isWriteAt (p : String) : Ev → Bool
  | .writeFile q _ => q == p
  | _ => false

/-- `e.isRenameTo p` holds of a `renameFile` event whose destination is
`p`. -/
def Ev.isRenameTo (p : String) : Ev → Bool
  | .renameFile _ d => d == p
  | _ => false

/-- The body of `run_pmvs` once a working directory `work` exists
(source lines 191-242): set up the `visualize` and `txt` subdirectories
(either external-converter call or distortion assert may fail), make
`models`, write the options file and `vis.dat` (whose leading assert may
fail), run `pmvs2`, write the runtime-report file — defaulting to
`destPath.parent / (destPath.stem + '_runtime.txt')` — and finally rename
`models/option.txt.ply` to `destDir/destFile` if it exists, else
`assert False`.  Returns the event trace and `true` iff no failure. -/
def run_pmvs_with (env : RunEnv)
    (destDir destFile runtimeFile : Option String) (work : String) :
    List Ev × Bool :=
  let e1 : List Ev := [.setupVisualize env.imagesPath work]
  if env.convertOk = false then (e1 ++ [.raiseError], false) else
  let e2 := e1 ++ [.setupTxt env.imagesPath work]
  if env.calibOk = false then (e2 ++ [.assertFail], false) else
  let e3 := e2 ++ [.mkdirModels work, .writeOptionsFile work, .writeVisFile work]
  if env.visOk = false then (e3 ++ [.assertFail], false) else
  let e4 := e3 ++ [.callPmvs work]
  if env.pmvsOk = false then (e4 ++ [.raiseError], false) else
  let dd := destDir.getD env.cwd
  let df := destFile.getD "reconstruction.ply"
  let destPath := dd ++ "/" ++ df
  let rt := runtimeFile.getD (dd ++ "/" ++ (pathStem df ++ "_runtime.txt"))
  let e5 := e4 ++ [.writeFile rt env.dtStr]
  if env.artifactExists then
    (e5 ++ [.renameFile (work ++ "/models/option.txt.ply") destPath], true)
  else
    (e5 ++ [.assertFail], false)

/-- `run_pmvs`: with an explicit working directory the body runs there;
with `workDirectory=None` a `TemporaryDirectory` is entered, the function
recurses into it, and the context manager removes the directory when the
block exits — normally or by exception. -/
def run_pmvs (env : RunEnv) (destDir destFile : Option String)
    (workDirectory : Option String) (runtimeFile : Option String) :
    List Ev × Bool :=
  match workDirectory with
  | some w => run_pmvs_with env destDir destFile runtimeFile w
  | none =>
      let inner := run_pmvs_with env destDir destFile runtimeFile env.tmpName
      (Ev.mkTempDir env.tmpName :: (inner.1 ++ [Ev.removeTempDir env.tmpName]),
       inner.2)

/-! ## Helper lemmas -/

/-- Adding a fixed `c` and reducing mod `N` is injective on `[0, N)`. -/
theorem add_mod_inj {N c a b : Nat} (ha : a < N) (hb : b < N)
    (h : (c + a) % N = (c + b) % N) : a = b := by
  have h' : a % N = b % N := Nat.ModEq.add_left_cancel' c h
  rwa [Nat.mod_eq_of_lt ha, Nat.mod_eq_of_lt hb] at h'

/-- A successor-neighbor value, rewritten as a cast of a `Nat` mod. -/
theorem succ_mod_cast (N c i : Nat) :
    ((c : Int) + i + 1) % (N : Int) = (((c + (i + 1)) % N : Nat) : Int) := rfl

/-- A predecessor-neighbor value, rewritten as a cast of a `Nat` mod. -/
theorem pred_mod_cast (N c i : Nat) (h : i + 1 ≤ N) :
    ((c : Int) - i - 1) % (N : Int) = (((c + (N - (i + 1))) % N : Nat) : Int) := by
  rw [Int.ofNat_emod]
  have h2 : ((c + (N - (i + 1)) : Nat) : Int) = (c : Int) - i - 1 + (N : Int) * 1 := by
    push_cast [h]
    ring
  rw [h2, Int.add_mul_emod_self_left]

/-- `ringNeighbors` as a cast of a `Nat`-valued list (needs enough room
for the predecessor offsets). -/
theorem ringNeighbors_natform (N : Nat) (K : Int) (c : Nat)
    (hq : numNegativeNeighbors K ≤ N) :
    ringNeighbors N K c =
      (((List.range (numPositiveNeighbors K)).map fun i => (c + (i + 1)) % N) ++
       ((List.range (numNegativeNeighbors K)).map fun i => (c + (N - (i + 1))) % N)).map
        (fun n : Nat => (n : Int)) := by
  unfold ringNeighbors
  rw [List.map_append, List.map_map, List.map_map]
  congr 1
  apply List.map_congr_left
  intro i hi
  have hi' : i + 1 ≤ N := by
    have := List.mem_range.mp hi
    omega
  exact pred_mod_cast N c i hi'

/-- The neighbor list of a camera has no duplicates when `K < N`. -/
theorem ringNeighbors_nodup (N : Nat) (K : Int) (c : Nat) (hK : 1 ≤ K)
    (hKN : K < (N : Int)) : (ringNeighbors N K c).Nodup := by
  have hpq : numPositiveNeighbors K + numNegativeNeighbors K = K.toNat := by
    unfold numPositiveNeighbors numNegativeNeighbors
    omega
  have hKN' : K.toNat < N := by omega
  have hK' : 1 ≤ K.toNat := by omega
  rw [ringNeighbors_natform N K c (by omega)]
  apply List.Nodup.map (fun a b hab => by exact_mod_cast hab)
  rw [List.nodup_append]
  refine ⟨?_, ?_, ?_⟩
  · refine List.Nodup.map_on ?_ (List.nodup_range _)
    intro x hx y hy hxy
    have hx' := List.mem_range.mp hx
    have hy' := List.mem_range.mp hy
    have := add_mod_inj (N := N) (c := c) (a := x + 1) (b := y + 1)
      (by omega) (by omega) hxy
    omega
  · refine List.Nodup.map_on ?_ (List.nodup_range _)
    intro x hx y hy hxy
    have hx' := List.mem_range.mp hx
    have hy' := List.mem_range.mp hy
    have := add_mod_inj (N := N) (c := c) (a := N - (x + 1)) (b := N - (y + 1))
      (by omega) (by omega) hxy
    omega
  · intro a ha hb
    rcases List.mem_map.mp ha with ⟨x, hx, rfl⟩
    rcases List.mem_map.mp hb with ⟨y, hy, hxy⟩
    have hx' := List.mem_range.mp hx
    have hy' := List.mem_range.mp hy
    have := add_mod_inj (N := N) (c := c) (a := N - (y + 1)) (b := x + 1)
      (by omega) (by omega) hxy
    omega

/-- Every neighbor index lies in `[0, N)`. -/
theorem ringNeighbors_mem_range (N : Nat) (K : Int) (c : Nat) (hN : 0 < N) :
    ∀ x ∈ ringNeighbors N K c, 0 ≤ x ∧ x < (N : Int) := by
  have hNz : (N : Int) ≠ 0 := by exact_mod_cast hN.ne'
  have hNp : (0 : Int) < N := by exact_mod_cast hN
  intro x hx
  unfold ringNeighbors at hx
  rcases List.mem_append.mp hx with h | h <;>
    rcases List.mem_map.mp h with ⟨i, _, rfl⟩ <;>
    exact ⟨Int.emod_nonneg _ hNz, Int.emod_lt_of_pos _ hNp⟩

/-- The neighbor list has exactly `K` entries (for `K ≥ 0`). -/
theorem ringNeighbors_length (N : Nat) (K : Int) (c : Nat) (hK : 0 ≤ K) :
    (ringNeighbors N K c).length = K.toNat := by
  unfold ringNeighbors numPositiveNeighbors numNegativeNeighbors
  simp only [List.length_append, List.length_map, List.length_range]
  omega

/-! ## Claim theorems -/

/-- C1 (amended): for camera count `N ≥ 1` and neighbor count
`1 ≤ K < N`, `write_vis_file_ring` succeeds and writes, after the
`VISDATA` marker and the camera count, one line per camera `c` holding
`c`, then `K`, then exactly `K` pairwise-distinct neighbor indices, all
in `[0, N)`: the `ceil(K/2)` successors in increasing offset order
followed by the `floor(K/2)` predecessors (the successor/predecessor
formulas are the defining equations of `ringNeighbors`, which `ringLine`
serialises).  The original claim's distinctness fails once `K ≥ N`
(see the counterexample), so it is restricted to `K < N` here. -/
theorem C1_vis_file_ring_structure (N : Nat) (K : Int)
    (hN : 1 ≤ N) (hK : 1 ≤ K) (hKN : K < (N : Int)) :
    (write_vis_file_ring N K).2 = true ∧
    (write_vis_file_ring N K).1 =
      "VISDATA\n" :: (toString N ++ "\n") ::
        ((List.range N).map (ringLine N K)).flatten ∧
    numPositiveNeighbors K = ((K + 1) / 2).toNat ∧
    numNegativeNeighbors K = (K / 2).toNat ∧
    numPositiveNeighbors K + numNegativeNeighbors K = K.toNat ∧
    ∀ c, c < N →
      (ringNeighbors N K c).length = K.toNat ∧
      (ringNeighbors N K c).Nodup ∧
      ∀ x ∈ ringNeighbors N K c, 0 ≤ x ∧ x < (N : Int) := by
  have h1 : K + 1 ≠ 0 := by omega
  refine ⟨?_, ?_, ?_, rfl, ?_, ?_⟩
  · simp [write_vis_file_ring, hK, h1]
  · simp [write_vis_file_ring, hK, h1]
  · unfold numPositiveNeighbors
    omega
  · unfold numPositiveNeighbors numNegativeNeighbors
    omega
  · intro c _
    exact ⟨ringNeighbors_length N K c (by omega),
           ringNeighbors_nodup N K c hK hKN,
           ringNeighbors_mem_range N K c (by omega)⟩

/-- C1 witness: the general theorem applied at `N = 4`, `K = 2`. -/
theorem C1_vis_file_ring_structure_witness :
    (1 ≤ 4 ∧ 1 ≤ (2 : Int) ∧ (2 : Int) < ((4 : Nat) : Int)) ∧
    (write_vis_file_ring 4 2).2 = true ∧ (ringNeighbors 4 2 0).Nodup ∧
    (ringNeighbors 4 2 0).length = 2 := by
  have h := C1_vis_file_ring_structure 4 2 (by decide) (by decide) (by decide)
  exact ⟨⟨by decide, by decide, by decide⟩, h.1,
         ((h.2.2.2.2.2) 0 (by decide)).2.1, ((h.2.2.2.2.2) 0 (by decide)).1⟩

/-- C1 counterexample: at `N = 2`, `K = 2` (both `≥ 1`), camera 0's line
is written with neighbors `[1, 1]` — the indices are not distinct, so
the claim as stated (for every `N ≥ 1`, `K ≥ 1` the `K` neighbor indices
are distinct) is false. -/
theorem C1_vis_file_ring_counterexample :
    (1 ≤ (2 : Nat) ∧ 1 ≤ (2 : Int)) ∧
    ringNeighbors 2 2 0 = [1, 1] ∧
    ¬ (ringNeighbors 2 2 0).Nodup ∧
    (write_vis_file_ring 2 2).1 =
      ["VISDATA\n", "2\n", "0 ", "2 ", "1 ", "1 ", "\n",
       "1 ", "2 ", "0 ", "0 ", "\n"] ∧
    (write_vis_file_ring 2 2).2 = true := by decide

/-- C8: with `numCameras = 4` and `numNeighbors = 2`, camera 0's
adjacency line is written as index `0`, count `2`, then neighbor `1`
(the single successor) followed by neighbor `3` (the single
predecessor). -/
theorem C8_vis_file_ring_4_2 :
    ringNeighbors 4 2 0 = [1, 3] ∧
    ringLine 4 2 0 = ["0 ", "2 ", "1 ", "3 ", "\n"] ∧
    (write_vis_file_ring 4 2).1 =
      ["VISDATA\n", "4\n",
       "0 ", "2 ", "1 ", "3 ", "\n",
       "1 ", "2 ", "2 ", "0 ", "\n",
       "2 ", "2 ", "3 ", "1 ", "\n",
       "3 ", "2 ", "0 ", "2 ", "\n"] := by decide

/-- C9: calling `write_vis_file_ring` with `numNeighbors < 1` fails the
`numNeighbors >= 1` assertion only after the `VISDATA` marker and the
camera count have been written: the output file exists and contains
exactly those two writes. -/
theorem C9_vis_file_partial_on_bad_neighbors (N : Nat) (K : Int)
    (h : K < 1) :
    write_vis_file_ring N K = (["VISDATA\n", toString N ++ "\n"], false) := by
  simp only [write_vis_file_ring]
  rw [if_neg (by omega)]

/-- C9 witness at `N = 4`, `K = 0`. -/
theorem C9_vis_file_partial_witness :
    (0 : Int) < 1 ∧ write_vis_file_ring 4 0 = (["VISDATA\n", "4\n"], false) :=
  ⟨by decide, C9_vis_file_partial_on_bad_neighbors 4 0 (by decide)⟩

/-- C4: `write_options_file` emits one line per field in declaration
(assignment) order — `"name value"` for int/float fields, `"name v1 v2
..."` for the list field — and omits `numNeighbors`; when `level = 1`,
`csize = 2` and `threshold = 0.6`, the file begins exactly with the
lines `level 1`, `csize 2`, `threshold 0.6`. -/
theorem C4_options_file_layout (o : PMVS2Options) :
    o.write_options_file =
      ["level " ++ toString o.level ++ "\n",
       "csize " ++ toString o.csize ++ "\n",
       "threshold " ++ o.threshold ++ "\n",
       "wsize " ++ toString o.wsize ++ "\n",
       "minImageNum " ++ toString o.minImageNum ++ "\n",
       "CPU " ++ toString o.CPU ++ "\n",
       "useVisData " ++ toString o.useVisData ++ "\n",
       "sequence " ++ toString o.sequence ++ "\n",
       "timages " ++ String.intercalate " " (o.timages.map toString) ++ "\n",
       "oimages " ++ toString o.oimages ++ "\n"] ∧
    (o.level = 1 → o.csize = 2 → o.threshold = "0.6" →
      o.write_options_file.take 3 =
        ["level 1\n", "csize 2\n", "threshold 0.6\n"]) := by
  constructor
  · rfl
  · intro h1 h2 h3
    show ["level " ++ toString o.level ++ "\n",
          "csize " ++ toString o.csize ++ "\n",
          "threshold " ++ o.threshold ++ "\n"] =
      ["level 1\n", "csize 2\n", "threshold 0.6\n"]
    rw [h1, h2, h3]
    decide

/-- C4 witness: the default options for 12 cameras. -/
theorem C4_options_file_layout_witness :
    (PMVS2Options.withDefaults 12).level = 1 ∧
    (PMVS2Options.withDefaults 12).csize = 2 ∧
    (PMVS2Options.withDefaults 12).threshold = "0.6" ∧
    (PMVS2Options.withDefaults 12).write_options_file =
      ["level 1\n", "csize 2\n", "threshold 0.6\n", "wsize 7\n",
       "minImageNum 2\n", "CPU 8\n", "useVisData 1\n", "sequence -1\n",
       "timages -1 0 12\n", "oimages 0\n"] ∧
    (PMVS2Options.withDefaults 12).write_options_file.take 3 =
      ["level 1\n", "csize 2\n", "threshold 0.6\n"] :=
  ⟨rfl, rfl, rfl, by decide,
   (C4_options_file_layout (PMVS2Options.withDefaults 12)).2 rfl rfl rfl⟩

/-- C5: for every camera, the projection matrix the loop computes is
`C * [transpose(R) | -transpose(R)*t]`: the extrinsic transform is
inverted (rotation transposed, translation negated-and-rotated) before
being combined with the intrinsics. -/
theorem C5_projection_matrix_formula (cam : CameraCalib) :
    projMatrix cam = projMatrixSpec cam.cameraMatrix cam.R cam.T := by
  unfold projMatrix projMatrixSpec
  rw [Matrix.neg_mulVec]

/-- C6: every per-camera projection file consists of the single literal
header line `CONTOUR` (no comment prefix), followed by the three rows of
the 3x4 projection matrix in `%f` fixed format, with nothing after the
matrix rows. -/
theorem C6_projection_file_layout (cam : CameraCalib) :
    projFileContent cam =
      "CONTOUR\n" ++
      (String.intercalate " "
        [fmtFixed6 (projMatrix cam 0 0), fmtFixed6 (projMatrix cam 0 1),
         fmtFixed6 (projMatrix cam 0 2), fmtFixed6 (projMatrix cam 0 3)] ++ "\n") ++
      (String.intercalate " "
        [fmtFixed6 (projMatrix cam 1 0), fmtFixed6 (projMatrix cam 1 1),
         fmtFixed6 (projMatrix cam 1 2), fmtFixed6 (projMatrix cam 1 3)] ++ "\n") ++
      (String.intercalate " "
        [fmtFixed6 (projMatrix cam 2 0), fmtFixed6 (projMatrix cam 2 1),
         fmtFixed6 (projMatrix cam 2 2), fmtFixed6 (projMatrix cam 2 3)] ++ "\n") := by
  rfl

/-- A single distortion coefficient strictly above the tolerance makes
the per-camera check fail. -/
theorem distortionOkB_eq_false {d : Fin 5 → ℚ} {k : Fin 5}
    (h : distTol < ratAbs (d k)) : distortionOkB d = false := by
  have hk : ¬ ratAbs (d k) < distTol := not_lt.mpr (le_of_lt h)
  fin_cases k <;> simp_all [distortionOkB]

/-- Characterisation of the camera loop: it succeeds iff every camera
passes the distortion check, and the files written are exactly one per
camera of the longest all-passing prefix. -/
theorem txtLoop_spec (i : Nat) (cams : List CameraCalib) :
    (txtLoop i cams).2 = cams.all (fun c => distortionOkB c.distCoffs) ∧
    (txtLoop i cams).1.length =
      (cams.takeWhile (fun c => distortionOkB c.distCoffs)).length := by
  induction cams generalizing i with
  | nil => simp [txtLoop]
  | cons c rest ih =>
    by_cases h : distortionOkB c.distCoffs
    · simpa [txtLoop, h, List.takeWhile_cons] using ih (i + 1)
    · simp [txtLoop, h, List.takeWhile_cons]

/-- A list containing an element failing `p` has a `takeWhile p` prefix
strictly shorter than the list. -/
theorem takeWhile_length_lt {α : Type} (p : α → Bool) (l : List α)
    (h : ∃ x ∈ l, p x = false) : (l.takeWhile p).length < l.length := by
  induction l with
  | nil => simp at h
  | cons a l ih =>
    rcases h with ⟨x, hx, hpx⟩
    by_cases hpa : p a
    · rcases List.mem_cons.mp hx with rfl | hx'
      · simp [hpa] at hpx
      · have := ih ⟨x, hx', hpx⟩
        simp only [List.takeWhile_cons, hpa, if_true, List.length_cons]
        omega
    · simp only [List.takeWhile_cons, Bool.not_eq_true] at hpa ⊢
      simp [hpa]

/-- C2 (amended): if any camera's distortion coefficient exceeds the
tolerance, `set_up_txt_subdirectory` fails its assertion, writing no
file for the offending camera or any later one — but the files of the
cameras preceding the first failing check have already been written, so
the failure is not "before any projection text file" in general. -/
theorem C2_distortion_abort (cams : List CameraCalib)
    (h : ∃ cam ∈ cams, ∃ k : Fin 5, distTol < ratAbs (cam.distCoffs k)) :
    (set_up_txt_subdirectory cams).2 = false ∧
    (set_up_txt_subdirectory cams).1.length =
      (cams.takeWhile (fun c => distortionOkB c.distCoffs)).length ∧
    (set_up_txt_subdirectory cams).1.length < cams.length := by
  have hex : ∃ x ∈ cams, distortionOkB x.distCoffs = false := by
    rcases h with ⟨cam, hmem, k, hk⟩
    exact ⟨cam, hmem, distortionOkB_eq_false hk⟩
  have hall : cams.all (fun c => distortionOkB c.distCoffs) = false := by
    rcases hex with ⟨x, hx, hpx⟩
    simp only [List.all_eq_false]
    exact ⟨x, hx, by simp [hpx]⟩
  have hspec := txtLoop_spec 0 cams
  have h3 : (txtLoop 0 cams).1.length < cams.length := by
    rw [hspec.2]
    exact takeWhile_length_lt _ cams hex
  exact ⟨hspec.1.trans hall, hspec.2, h3⟩

/-- C2 counterexample: two cameras, the first clean, the second with a
distortion coefficient of `1` (far above the tolerance).  The run fails,
but camera 0's projection file `00000000.txt` has already been written,
so the failure is not "before any projection text file has been
written" as the claim states. -/
theorem C2_distortion_abort_counterexample :
    (∃ k : Fin 5,
        distTol < ratAbs ((CameraCalib.mk 1 (fun _ => 1) 1 0).distCoffs k)) ∧
    (set_up_txt_subdirectory
        [CameraCalib.mk 1 0 1 0, CameraCalib.mk 1 (fun _ => 1) 1 0]).2 = false ∧
    (set_up_txt_subdirectory
        [CameraCalib.mk 1 0 1 0, CameraCalib.mk 1 (fun _ => 1) 1 0]).1.length = 1 ∧
    (set_up_txt_subdirectory
        [CameraCalib.mk 1 0 1 0, CameraCalib.mk 1 (fun _ => 1) 1 0]).1.map Prod.fst =
      ["00000000.txt"] := by decide

/-- C2 witness: the amended theorem applied to the same two cameras. -/
theorem C2_distortion_abort_witness :
    (∃ cam ∈ [CameraCalib.mk 1 0 1 0, CameraCalib.mk 1 (fun _ => 1) 1 0],
        ∃ k : Fin 5, distTol < ratAbs (cam.distCoffs k)) ∧
    ((set_up_txt_subdirectory
        [CameraCalib.mk 1 0 1 0, CameraCalib.mk 1 (fun _ => 1) 1 0]).2 = false ∧
     (set_up_txt_subdirectory
        [CameraCalib.mk 1 0 1 0, CameraCalib.mk 1 (fun _ => 1) 1 0]).1.length =
       ([CameraCalib.mk 1 0 1 0, CameraCalib.mk 1 (fun _ => 1) 1 0].takeWhile
          (fun c => distortionOkB c.distCoffs)).length ∧
     (set_up_txt_subdirectory
        [CameraCalib.mk 1 0 1 0, CameraCalib.mk 1 (fun _ => 1) 1 0]).1.length <
       [CameraCalib.mk 1 0 1 0, CameraCalib.mk 1 (fun _ => 1) 1 0].length) :=
  ⟨by decide, C2_distortion_abort _ (by decide)⟩

/-- C7: when `workDirectory=None`, `run_pmvs` first creates a fresh
temporary working directory and the last event before it returns or
propagates an exception — on every exit path, including the fatal
missing-artifact assertion — is the removal of that directory. -/
theorem C7_temp_dir_removed_on_all_paths (env : RunEnv)
    (destDir destFile runtimeFile : Option String) :
    (run_pmvs env destDir destFile none runtimeFile).1.head? =
      some (Ev.mkTempDir env.tmpName) ∧
    (run_pmvs env destDir destFile none runtimeFile).1.getLast? =
      some (Ev.removeTempDir env.tmpName) := by
  constructor
  · rfl
  · show (Ev.mkTempDir env.tmpName ::
      ((run_pmvs_with env destDir destFile runtimeFile env.tmpName).1 ++
        [Ev.removeTempDir env.tmpName])).getLast? =
      some (Ev.removeTempDir env.tmpName)
    rw [← List.cons_append, List.getLast?_concat]

/-- C10: on the missing-artifact failure path (all earlier steps
succeed, the artifact is absent), the runtime-report file — defaulting
to the destination stem plus `_runtime.txt` beside the destination —
is written, containing `str(dt)`, strictly before the fatal assertion,
and no destination file is renamed into place. -/
theorem C10_runtime_file_written_before_abort (env : RunEnv)
    (destDir destFile : Option String) (work : String)
    (h1 : env.convertOk = true) (h2 : env.calibOk = true)
    (h3 : env.visOk = true) (h4 : env.pmvsOk = true)
    (h5 : env.artifactExists = false) :
    (run_pmvs env destDir destFile (some work) none).1 =
      [.setupVisualize env.imagesPath work, .setupTxt env.imagesPath work,
       .mkdirModels work, .writeOptionsFile work, .writeVisFile work,
       .callPmvs work,
       .writeFile ((destDir.getD env.cwd) ++ "/" ++
         (pathStem (destFile.getD "reconstruction.ply") ++ "_runtime.txt"))
         env.dtStr,
       .assertFail] ∧
    (run_pmvs env destDir destFile (some work) none).2 = false := by
  simp [run_pmvs, run_pmvs_with, h1, h2, h3, h4, h5]

/-- C10 witness: a concrete failing run with default destination and
runtime-file naming. -/
theorem C10_runtime_file_witness :
    (RunEnv.mk "cwd" "tmp" "imgs" true true true true false "1.5").convertOk
      = true ∧
    (RunEnv.mk "cwd" "tmp" "imgs" true true true true false "1.5").calibOk
      = true ∧
    (RunEnv.mk "cwd" "tmp" "imgs" true true true true false "1.5").visOk
      = true ∧
    (RunEnv.mk "cwd" "tmp" "imgs" true true true true false "1.5").pmvsOk
      = true ∧
    (RunEnv.mk "cwd" "tmp" "imgs" true true true true false "1.5").artifactExists
      = false ∧
    (run_pmvs (RunEnv.mk "cwd" "tmp" "imgs" true true true true false "1.5")
        none none (some "w") none).1 =
      [.setupVisualize "imgs" "w", .setupTxt "imgs" "w", .mkdirModels "w",
       .writeOptionsFile "w", .writeVisFile "w", .callPmvs "w",
       .writeFile "cwd/reconstruction_runtime.txt" "1.5", .assertFail] ∧
    (run_pmvs (RunEnv.mk "cwd" "tmp" "imgs" true true true true false "1.5")
        none none (some "w") none).2 = false :=
  ⟨rfl, rfl, rfl, rfl, rfl,
   C10_runtime_file_written_before_abort
     (RunEnv.mk "cwd" "tmp" "imgs" true true true true false "1.5")
     none none "w" rfl rfl rfl rfl rfl⟩

/-- C3 counterexample: if the caller passes `runtimeFile` equal to the
destination path `destDir/destFile`, a failing run (artifact absent)
still creates a file at the destination path — the runtime report is
written there before the assertion fires — so "no file is created or
renamed at the destination path" is false as stated for every run. -/
theorem C3_missing_artifact_counterexample :
    (RunEnv.mk "c" "t" "imgs" true true true true false "2.5").pmvsOk = true ∧
    (RunEnv.mk "c" "t" "imgs" true true true true false "2.5").artifactExists
      = false ∧
    (run_pmvs (RunEnv.mk "c" "t" "imgs" true true true true false "2.5")
        (some "d") (some "out.ply") (some "w") (some "d/out.ply")).2 = false ∧
    Ev.assertFail ∈
      (run_pmvs (RunEnv.mk "c" "t" "imgs" true true true true false "2.5")
        (some "d") (some "out.ply") (some "w") (some "d/out.ply")).1 ∧
    Ev.writeFile "d/out.ply" "2.5" ∈
      (run_pmvs (RunEnv.mk "c" "t" "imgs" true true true true false "2.5")
        (some "d") (some "out.ply") (some "w") (some "d/out.ply")).1 := by
  decide

/-- C3 (amended): on a run where `pmvs2` returns successfully but the
artifact `models/option.txt.ply` is absent, `run_pmvs` ends in the fatal
assertion and — provided the runtime-report path (explicit or default)
differs from `destDir/destFile` — no file is created or renamed at the
destination path. -/
theorem C3_missing_artifact_aborts (env : RunEnv)
    (destDir destFile workDirectory runtimeFile : Option String)
    (h1 : env.convertOk = true) (h2 : env.calibOk = true)
    (h3 : env.visOk = true) (h4 : env.pmvsOk = true)
    (h5 : env.artifactExists = false)
    (h6 : runtimeFile.getD ((destDir.getD env.cwd) ++ "/" ++
            (pathStem (destFile.getD "reconstruction.ply") ++ "_runtime.txt")) ≠
          (destDir.getD env.cwd) ++ "/" ++ destFile.getD "reconstruction.ply") :
    (run_pmvs env destDir destFile workDirectory runtimeFile).2 = false ∧
    Ev.assertFail ∈ (run_pmvs env destDir destFile workDirectory runtimeFile).1 ∧
    ((run_pmvs env destDir destFile workDirectory runtimeFile).1.all fun e =>
        !(e.isWriteAt ((destDir.getD env.cwd) ++ "/" ++
            destFile.getD "reconstruction.ply") ||
          e.isRenameTo ((destDir.getD env.cwd) ++ "/" ++
            destFile.getD "reconstruction.ply"))) = true := by
  cases workDirectory with
  | some w =>
      simp [run_pmvs, run_pmvs_with, h1, h2, h3, h4, h5,
            Ev.isWriteAt, Ev.isRenameTo, h6]
  | none =>
      simp [run_pmvs, run_pmvs_with, h1, h2, h3, h4, h5,
            Ev.isWriteAt, Ev.isRenameTo, h6]

/-- C3 witness: a concrete failing run with the default runtime-report
path, which differs from the destination path. -/
theorem C3_missing_artifact_witness :
    (RunEnv.mk "c" "t" "imgs" true true true true false "2.5").artifactExists
      = false ∧
    "c/out_runtime.txt" ≠ "c/out.ply" ∧
    (run_pmvs (RunEnv.mk "c" "t" "imgs" true true true true false "2.5")
        none (some "out.ply") (some "w") none).2 = false ∧
    Ev.assertFail ∈
      (run_pmvs (RunEnv.mk "c" "t" "imgs" true true true true false "2.5")
        none (some "out.ply") (some "w") none).1 ∧
    ((run_pmvs (RunEnv.mk "c" "t" "imgs" true true true true false "2.5")
        none (some "out.ply") (some "w") none).1.all fun e =>
        !(e.isWriteAt "c/out.ply" || e.isRenameTo "c/out.ply")) = true := by
  have h := C3_missing_artifact_aborts
    (RunEnv.mk "c" "t" "imgs" true true true true false "2.5")
    none (some "out.ply") (some "w") none rfl rfl rfl rfl rfl (by decide)
  exact ⟨rfl, by decide, h.1, h.2.1, h.2.2⟩
